import Mathlib

/-!
Shallow embedding of the token validation-and-refresh coordinator from
`src/lib/server/token.ts` of the Svarog repository: the functions
`ValidateAccess`, `handleTokenRefresh`, `getUserFromToken` and `requireAuth`,
together with the external collaborators they consume (the jose `jwtVerify`
primitive, the cookie store, the refresh exchange and the SvelteKit
redirect mechanism).

Modelling conventions:

* The JS `Map<string, boolean>` `refreshingStates` only ever stores the
  value `true` (`refreshingStates.set(sessionId, true)`), so the map is
  embedded as its key set, a `List String`, with `get`/`set`/`delete`
  embedded as `hasKey`/`setKey`/`deleteKey`.
* Cookie and header reads return `Option String`.  JS truthiness, under
  which both `undefined` and the empty string are falsy, is embedded by
  `jsTruthy`; the source tests cookie values with bare truthiness
  (`if (accessToken)`, `if (!refreshToken)`, `a || b || 'default'`).
* Every `await` in the source is a suspension point at which concurrently
  running requests may mutate the shared state (the lock map, and the
  cookie store through the Set-Cookie of the refresh endpoint).  The
  environment is embedded as a schedule `Sched`: a list of state
  transformers, one consumed per suspension point (`step`); an exhausted
  schedule leaves the state unchanged.
* Thrown JS values are `Except` errors.  `Thrown.redirect` embeds a thrown
  SvelteKit `redirect(status, location)` object, `Thrown.err` a thrown
  `Error`.  The `catch` block of `handleTokenRefresh` converts every error
  of the `try` block into `redirect(302, '/auth/login')`; the distinct
  `Error` messages of the `try` block are embedded as the constructors of
  `RefreshError`.
* Timestamps (`exp`, `Math.floor(Date.now() / 1000)`) are `Int` seconds;
  no machine-integer overflow is involved.
-/

/-- Decoded JWT claims record.  `iss` and `exp` are the claims the core
inspects; `sub` stands for the remaining (opaque) claim fields, so that
two payloads with the same `iss`/`exp` can still differ. -/
structure Payload where
  iss : Option String
  exp : Option Int
  sub : String
deriving DecidableEq, Repr

/-- Failure kinds of credential validation: the first three are produced by
the external verification primitive (jose `jwtVerify`), the last by the
expiry-buffer check inside `ValidateAccess`. -/
inductive VError where
  | invalidSignature
  | invalidIssuer
  | expired
  | aboutToExpire
deriving DecidableEq, Repr

/-- External collaborator: the jose function `jwtVerify(jwt, publicKey, issuerOption)`,
embedded from its documented behaviour.  Signature verification and payload
decoding are abstracted into the `decode` parameter (`decode jwt = none`
means the signature does not verify against the key).  On a decoded
payload, jose validates the `issuer` option against the `iss` claim and
the standard `exp` claim (with the default `clockTolerance` of 0 it
rejects a token whose `exp` is not in the future). -/
def jwtVerify (decode : String → Option Payload) (expectedIssuer : String) (now : Int)
    (jwt : String) : Except VError Payload :=
  match decode jwt with
  | none => .error .invalidSignature
  | some p =>
    if p.iss ≠ some expectedIssuer then .error .invalidIssuer
    else
      match p.exp with
      | some e => if e ≤ now then .error .expired else .ok p
      | none => .ok p

/-- `ValidateAccess(jwt)` from `token.ts`: verify the token via `jwtVerify`
with issuer `'auth:auth'`, then apply the `EXPIRY_BUFFER = 30` seconds
check.  The source guards the buffer check with
`payload.exp && typeof payload.exp === 'number'`, so a missing `exp` — and,
by JS truthiness, `exp = 0` — skips the check. -/
def ValidateAccess (decode : String → Option Payload) (now : Int) (jwt : String) :
    Except VError Payload :=
  match jwtVerify decode "auth:auth" now jwt with
  | .error e => .error e
  | .ok payload =>
    match payload.exp with
    | some e =>
      if e ≠ 0 then
        if e - now < 30 then .error .aboutToExpire else .ok payload
      else .ok payload
    | none => .ok payload

/-- JS truthiness of a cookie/header read: `undefined` and `""` are falsy. -/
def jsTruthy : Option String → Bool
  | none => false
  | some s => s ≠ ""

/-- The process-wide mutable state the core reads and writes: the
`refreshingStates` lock map (as its key set) and the cookie store
(`accessToken`, `refreshToken`, `sessionId`). -/
structure Shared where
  refreshingStates : List String
  accessToken : Option String
  refreshToken : Option String
  sessionIdCookie : Option String
deriving DecidableEq, Repr

/-- Environment schedule: interference applied by concurrently running
requests, one transformer consumed per suspension point. -/
abbrev Sched := List (Shared → Shared)

/-- Consume one suspension point: apply the next environment transformer,
or leave the state unchanged when the schedule is exhausted. -/
def step (sch : Sched) (σ : Shared) : Shared × Sched :=
  match sch with
  | [] => (σ, [])
  | u :: rest => (u σ, rest)

/-- `refreshingStates.get(k)` (truthiness of the stored value). -/
def hasKey (l : List String) (k : String) : Bool :=
  match l with
  | [] => false
  | a :: t => if a = k then true else hasKey t k

/-- `refreshingStates.set(k, true)` on the key-set view. -/
def setKey (l : List String) (k : String) : List String :=
  if hasKey l k then l else k :: l

/-- `refreshingStates.delete(k)` on the key-set view. -/
def deleteKey (l : List String) (k : String) : List String :=
  match l with
  | [] => []
  | a :: t => if a = k then deleteKey t k else a :: deleteKey t k

/-- Outcome of the refresh exchange `event.fetch('/auth/refresh', ...)`:
the `ok` flag and `status` of the response. -/
structure FetchResult where
  ok : Bool
  status : Nat
deriving DecidableEq, Repr

/-- The distinct `Error`s thrown inside the `try` block of
`handleTokenRefresh`, plus failure of the final `ValidateAccess` call. -/
inductive RefreshError where
  | missingRefreshToken
  | refreshExchangeFailed (status : Nat)
  | missingIssuedCredential
  | validationFailed (e : VError)
deriving DecidableEq, Repr

/-- A thrown JS value escaping a core function: a SvelteKit redirect
object or an `Error`. -/
inductive Thrown where
  | redirect (status : Nat) (location : String)
  | err (e : RefreshError)
deriving DecidableEq, Repr

deriving instance DecidableEq for Except

/-- The error of an `Except`, if any. -/
def errorOf {ε α : Type} : Except ε α → Option ε
  | .ok _ => none
  | .error e => some e

/-- Whether an `Except` is a success. -/
def exceptIsOk {ε α : Type} : Except ε α → Bool
  | .ok _ => true
  | .error _ => false

/-- Result of the `try` block of `handleTokenRefresh` (before the
`catch`/`finally`): structured outcome, state and schedule at its end, and
whether the refresh exchange was invoked. -/
structure BodyOut where
  result : Except RefreshError Payload
  state : Shared
  sch : Sched
  performedExchange : Bool

/-- Observable summary of one `handleTokenRefresh` call: its
returned-or-thrown result, the shared state immediately after it returns,
and instrumentation that does not influence behaviour — the number of
poll-loop sleeps, the number of validator runs inside the waiting branch,
whether the call returned early from the waiting branch, whether it
executed `refreshingStates.set`, whether it invoked the refresh exchange,
and the `try`-block error the `catch` converted into a redirect. -/
structure RunResult where
  result : Except Thrown Payload
  final : Shared
  polls : Nat
  waitValidations : Nat
  earlyReturn : Bool
  marked : Bool
  performedExchange : Bool
  innerError : Option RefreshError
deriving DecidableEq, Repr

/-- The wait loop
`while (refreshingStates.get(sessionId) && attempts < 30) { await sleep(100); attempts++ }`.
`fuel` is `30 - attempts`; each iteration re-checks only the lock flag,
then suspends (consuming one schedule entry).  Returns the number of
sleeps performed together with the state and schedule after the loop. -/
def pollLoop (sessionId : String) : Nat → Shared → Sched → Nat × Shared × Sched
  | 0, σ, sch => (0, σ, sch)
  | fuel + 1, σ, sch =>
    if hasKey σ.refreshingStates sessionId then
      let p := step sch σ
      let r := pollLoop sessionId fuel p.1 p.2
      (r.1 + 1, r.2)
    else (0, σ, sch)

/-- Outcome of the already-refreshing branch of `handleTokenRefresh`:
either an early `return await ValidateAccess(accessToken)`, or control
falling through to the mark-and-refresh part.  Carries the state and
schedule at that point plus the poll/validation counts. -/
inductive WaitOutcome where
  | early (payload : Payload) (σ : Shared) (sch : Sched) (polls waitValidations : Nat)
  | fallThrough (σ : Shared) (sch : Sched) (polls waitValidations : Nat)

/-- The `if (refreshingStates.get(sessionId)) { ... }` prefix of
`handleTokenRefresh`: when the key is marked, run the bounded poll loop,
then read the access cookie once and — if it is truthy — run
`ValidateAccess` on it once (an `await`, hence a suspension point),
returning its claims on success and falling through on failure. -/
def waitPhase (validate : String → Except VError Payload) (sessionId : String)
    (σ₀ : Shared) (sch₀ : Sched) : WaitOutcome :=
  if hasKey σ₀.refreshingStates sessionId then
    let w := pollLoop sessionId 30 σ₀ sch₀
    if jsTruthy w.2.1.accessToken = true then
      let p := step w.2.2 w.2.1
      match validate (w.2.1.accessToken.getD "") with
      | .ok payload => .early payload p.1 p.2 w.1 1
      | .error _ => .fallThrough p.1 p.2 w.1 1
    else .fallThrough w.2.1 w.2.2 w.1 0
  else .fallThrough σ₀ sch₀ 0 0

/-- The `try` block of `handleTokenRefresh`: require a truthy refresh
cookie (else `Error('No refresh token available')`), perform the refresh
exchange (a suspension point — the new access cookie becomes visible
through it), require `refreshRes.ok` (else
`Error('Refresh failed with status: ...')`), require a truthy new access
cookie (else `Error('No new access token provided after refresh')`), and
validate the new credential (another suspension point). -/
def refreshBody (validate : String → Except VError Payload) (fetchRefresh : String → FetchResult)
    (σ : Shared) (sch : Sched) : BodyOut :=
  if jsTruthy σ.refreshToken = true then
    let rt := σ.refreshToken.getD ""
    let p := step sch σ
    let res := fetchRefresh rt
    if res.ok = true then
      if jsTruthy p.1.accessToken = true then
        let q := step p.2 p.1
        match validate (p.1.accessToken.getD "") with
        | .ok payload => ⟨.ok payload, q.1, q.2, true⟩
        | .error e => ⟨.error (.validationFailed e), q.1, q.2, true⟩
      else ⟨.error .missingIssuedCredential, p.1, p.2, true⟩
    else ⟨.error (.refreshExchangeFailed res.status), p.1, p.2, true⟩
  else ⟨.error .missingRefreshToken, σ, sch, false⟩

/-- The state after `refreshingStates.set(sessionId, true)`. -/
def markedState (σ : Shared) (sessionId : String) : Shared :=
  { σ with refreshingStates := setKey σ.refreshingStates sessionId }

/-- The mark / `try` / `catch` / `finally` part of `handleTokenRefresh`:
set the lock, run the `try` block, convert any of its errors into a thrown
`redirect(302, '/auth/login')` (the `catch`), and delete the lock entry as
the last action before returning (the `finally`). -/
def markAndRefresh (validate : String → Except VError Payload)
    (fetchRefresh : String → FetchResult) (sessionId : String)
    (σ : Shared) (sch : Sched) (polls waitValidations : Nat) : RunResult :=
  let b := refreshBody validate fetchRefresh (markedState σ sessionId) sch
  { result := Except.mapError (fun _ => Thrown.redirect 302 "/auth/login") b.result
    final := { b.state with refreshingStates := deleteKey b.state.refreshingStates sessionId }
    polls := polls
    waitValidations := waitValidations
    earlyReturn := false
    marked := true
    performedExchange := b.performedExchange
    innerError := errorOf b.result }

/-- `handleTokenRefresh(event, sessionId)` from `token.ts`: the
already-refreshing waiting branch, then — unless that branch returned
early — mark, refresh and clean up. -/
def handleTokenRefresh (validate : String → Except VError Payload)
    (fetchRefresh : String → FetchResult) (sessionId : String)
    (σ₀ : Shared) (sch₀ : Sched) : RunResult :=
  match waitPhase validate sessionId σ₀ sch₀ with
  | .early payload σ' _sch polls waitValidations =>
    { result := .ok payload
      final := σ'
      polls := polls
      waitValidations := waitValidations
      earlyReturn := true
      marked := false
      performedExchange := false
      innerError := none }
  | .fallThrough σ' sch' polls waitValidations =>
    markAndRefresh validate fetchRefresh sessionId σ' sch' polls waitValidations

/-- `headers.get('x-session-id') || cookies.get('sessionId') || 'default'`
(JS `||` with truthiness). -/
def deriveSessionId (xSessionId : Option String) (sessionIdCookie : Option String) : String :=
  if jsTruthy xSessionId = true then xSessionId.getD ""
  else if jsTruthy sessionIdCookie = true then sessionIdCookie.getD ""
  else "default"

/-- `getUserFromToken(event)` from `token.ts`: try the access credential
first (the validation `await` is a suspension point); on validation
failure delegate to `handleTokenRefresh` if a refresh credential is
present; with no access credential delegate directly if a refresh
credential is present; otherwise return `null`.  The pair also carries the
shared state when the call returns. -/
def getUserFromToken (validate : String → Except VError Payload)
    (fetchRefresh : String → FetchResult) (xSessionId : Option String)
    (σ₀ : Shared) (sch₀ : Sched) : Except Thrown (Option Payload) × Shared :=
  let sessionId := deriveSessionId xSessionId σ₀.sessionIdCookie
  if jsTruthy σ₀.accessToken = true then
    let p := step sch₀ σ₀
    match validate (σ₀.accessToken.getD "") with
    | .ok payload => (.ok (some payload), p.1)
    | .error _ =>
      if jsTruthy p.1.refreshToken = true then
        let r := handleTokenRefresh validate fetchRefresh sessionId p.1 p.2
        (Except.map some r.result, r.final)
      else (.ok none, p.1)
  else
    if jsTruthy σ₀.refreshToken = true then
      let r := handleTokenRefresh validate fetchRefresh sessionId σ₀ sch₀
      (Except.map some r.result, r.final)
    else (.ok none, σ₀)

/-- ASCII code of an uppercase hex digit, as produced by JS percent
encoding. -/
def hexDigitChar (n : Nat) : Char :=
  if n < 10 then Char.ofNat (48 + n) else Char.ofNat (55 + n)

/-- UTF-8 bytes of a Unicode code point. -/
def utf8Bytes (n : Nat) : List Nat :=
  if n < 128 then [n]
  else if n < 2048 then [192 + n / 64, 128 + n % 64]
  else if n < 65536 then [224 + n / 4096, 128 + (n / 64) % 64, 128 + n % 64]
  else [240 + n / 262144, 128 + (n / 4096) % 64, 128 + (n / 64) % 64, 128 + n % 64]

/-- Code points `encodeURIComponent` leaves unescaped:
`A-Z a-z 0-9 - _ . ! ~ * ' ( )`. -/
def isUnreservedCode (n : Nat) : Bool :=
  (65 ≤ n && n ≤ 90) || (97 ≤ n && n ≤ 122) || (48 ≤ n && n ≤ 57) ||
  n == 45 || n == 95 || n == 46 || n == 33 || n == 126 || n == 42 ||
  n == 39 || n == 40 || n == 41

/-- Percent-encoding of one character, per the `encodeURIComponent`
specification: unreserved characters pass through, every other character
is replaced by the `%XX` encoding of each of its UTF-8 bytes. -/
def encodeChar (c : Char) : List Char :=
  if isUnreservedCode c.toNat then [c]
  else (utf8Bytes c.toNat).flatMap (fun b => [Char.ofNat 37, hexDigitChar (b / 16), hexDigitChar (b % 16)])

/-- External collaborator: JS `encodeURIComponent`. -/
def encodeURIComponent (s : String) : String :=
  String.mk (s.data.flatMap encodeChar)

/-- `requireAuth(event)` from `token.ts`: resolve the user; on `null`
throw `redirect(302, '/auth/login?returnUrl=' + encodeURIComponent(event.url.pathname + event.url.search))`;
a value thrown by the resolver propagates unchanged. -/
def requireAuth (validate : String → Except VError Payload)
    (fetchRefresh : String → FetchResult) (xSessionId : Option String)
    (pathname search : String) (σ₀ : Shared) (sch₀ : Sched) :
    Except Thrown Payload × Shared :=
  let g := getUserFromToken validate fetchRefresh xSessionId σ₀ sch₀
  match g.1 with
  | .ok (some user) => (.ok user, g.2)
  | .ok none =>
    (.error (.redirect 302 ("/auth/login?returnUrl=" ++ encodeURIComponent (pathname ++ search))), g.2)
  | .error t => (.error t, g.2)

/-! ### Concrete fixtures

A small concrete instantiation of the external collaborators, used by the
counterexamples and witnesses below.  The wall clock is fixed at
`now = 1000`. -/

/-- A credential far from expiry (`exp = 2000`, buffer satisfied). -/
def payloadFresh : Payload := { iss := some "auth:auth", exp := some 2000, sub := "u-fresh" }

/-- A cryptographically valid credential inside the 30 s expiry buffer
(`exp = 1010`, 10 s ahead of `now = 1000`). -/
def payloadNearExpiry : Payload := { iss := some "auth:auth", exp := some 1010, sub := "u-near" }

/-- An already-expired credential (`exp = 500 < now`). -/
def payloadExpired : Payload := { iss := some "auth:auth", exp := some 500, sub := "u-old" }

/-- A credential carrying no `exp` claim. -/
def payloadNoExp : Payload := { iss := some "auth:auth", exp := none, sub := "u-noexp" }

/-- Concrete signature-verification oracle: four well-signed tokens, every
other string fails verification. -/
def decodeFixture : String → Option Payload := fun s =>
  if s = "fresh" then some payloadFresh
  else if s = "near" then some payloadNearExpiry
  else if s = "old" then some payloadExpired
  else if s = "noexp" then some payloadNoExp
  else none

/-- The credential validator at the fixed wall clock. -/
def vFix : String → Except VError Payload := ValidateAccess decodeFixture 1000

/-- A refresh exchange that reports success. -/
def fetchOk : String → FetchResult := fun _ => { ok := true, status := 200 }

/-- A refresh exchange that reports failure with status 500. -/
def fetchFail : String → FetchResult := fun _ => { ok := false, status := 500 }

/-- A request carrying no credentials at all, with an empty lock table. -/
def sharedEmpty : Shared :=
  { refreshingStates := [], accessToken := none, refreshToken := none, sessionIdCookie := none }

/-- Session `"s"` already marked `Refreshing` by a concurrent caller while
a valid access credential is externally visible (the winner has stored the
newly issued credential but not yet released the lock). -/
def sharedLockedFresh : Shared :=
  { refreshingStates := ["s"], accessToken := some "fresh", refreshToken := some "rt",
    sessionIdCookie := none }

/-- Session `"s"` already marked `Refreshing` while the visible access
credential still fails verification. -/
def sharedLockedBad : Shared :=
  { refreshingStates := ["s"], accessToken := some "bad", refreshToken := some "rt",
    sessionIdCookie := none }

/-- An unlocked request carrying an about-to-expire access credential and
a refresh credential. -/
def sharedNear : Shared :=
  { refreshingStates := [], accessToken := some "near", refreshToken := some "rt",
    sessionIdCookie := none }

/-- An unlocked request whose access credential fails verification and
which carries no refresh credential. -/
def sharedBadNoRefresh : Shared :=
  { refreshingStates := [], accessToken := some "bad", refreshToken := none,
    sessionIdCookie := none }

/-- An unlocked request with no access credential but a refresh
credential; the refresh exchange never makes a new access credential
visible. -/
def sharedNoAccess : Shared :=
  { refreshingStates := [], accessToken := none, refreshToken := some "rt",
    sessionIdCookie := none }

/-! ### Helper lemmas -/

/-- After `deleteKey`, the deleted key is absent. -/
theorem hasKey_deleteKey (l : List String) (k : String) :
    hasKey (deleteKey l k) k = false := by
  induction l with
  | nil => rfl
  | cons a t ih =>
    by_cases h : a = k
    · simp [deleteKey, h, ih]
    · simp [deleteKey, hasKey, h, ih]

/-- The poll loop performs at most `fuel` sleeps. -/
theorem pollLoop_fst_le (sessionId : String) (fuel : Nat) (σ : Shared) (sch : Sched) :
    (pollLoop sessionId fuel σ sch).1 ≤ fuel := by
  induction fuel generalizing σ sch with
  | zero => simp [pollLoop]
  | succ n ih =>
    by_cases h : hasKey σ.refreshingStates sessionId
    · simp only [pollLoop, h, if_true]
      exact Nat.succ_le_succ (ih _ _)
    · simp [pollLoop, h]

/-- The `try` block invokes the refresh exchange exactly when the refresh
cookie is truthy. -/
theorem refreshBody_performedExchange (v : String → Except VError Payload)
    (f : String → FetchResult) (σ : Shared) (sch : Sched) :
    (refreshBody v f σ sch).performedExchange = jsTruthy σ.refreshToken := by
  unfold refreshBody
  cases hT : jsTruthy σ.refreshToken
  · simp [hT]
  · cases hOk : (f (σ.refreshToken.getD "")).ok
    · simp [hT, hOk]
    · cases hA : jsTruthy (step sch σ).1.accessToken
      · simp [hT, hOk, hA]
      · cases hV : v ((step sch σ).1.accessToken.getD "") <;> simp [hT, hOk, hA, hV]

/-- Decision-tree characterisation of the `try` block of
`handleTokenRefresh`. -/
theorem refreshBody_result_eq (v : String → Except VError Payload)
    (f : String → FetchResult) (σ : Shared) (sch : Sched) :
    (refreshBody v f σ sch).result =
      (if jsTruthy σ.refreshToken = false then Except.error RefreshError.missingRefreshToken
       else if (f (σ.refreshToken.getD "")).ok = false then
         Except.error (RefreshError.refreshExchangeFailed (f (σ.refreshToken.getD "")).status)
       else if jsTruthy (step sch σ).1.accessToken = false then
         Except.error RefreshError.missingIssuedCredential
       else Except.mapError RefreshError.validationFailed
         (v ((step sch σ).1.accessToken.getD ""))) := by
  unfold refreshBody
  cases hT : jsTruthy σ.refreshToken
  · simp [hT]
  · cases hOk : (f (σ.refreshToken.getD "")).ok
    · simp [hT, hOk]
    · cases hA : jsTruthy (step sch σ).1.accessToken
      · simp [hT, hOk, hA]
      · cases hV : v ((step sch σ).1.accessToken.getD "") <;>
          simp [hT, hOk, hA, hV, Except.mapError]

/-! ### Claims about the Credential Validator -/

/-- Claim C8 (confirmed): a credential whose signature verifies, whose
issuer matches, and whose `exp` claim lies more than the 30 s buffer in
the future validates to exactly its decoded payload. -/
theorem c8_valid_credential_returns_payload (decode : String → Option Payload) (now : Int)
    (jwt : String) (p : Payload) (e : Int)
    (h1 : decode jwt = some p) (h2 : p.iss = some "auth:auth")
    (h3 : p.exp = some e) (h4 : 30 < e - now) :
    ValidateAccess decode now jwt = .ok p := by
  have hnow : ¬ e ≤ now := by omega
  unfold ValidateAccess jwtVerify
  rw [h1]
  by_cases h0 : e = 0
  · subst h0
    simp [h2, h3, hnow]
  · have hb : ¬ (e - now < 30) := by omega
    simp [h2, h3, hnow, h0, hb]

/-- Witness for C8 at the concrete fixture: the fresh credential
(`exp = 2000`, `now = 1000`) validates to its payload. -/
theorem c8_valid_credential_returns_payload_witness :
    decodeFixture "fresh" = some payloadFresh ∧
    payloadFresh.iss = some "auth:auth" ∧ payloadFresh.exp = some 2000 ∧
    (30 : Int) < 2000 - 1000 ∧
    ValidateAccess decodeFixture 1000 "fresh" = .ok payloadFresh :=
  ⟨by decide, by decide, by decide, by decide,
    c8_valid_credential_returns_payload decodeFixture 1000 "fresh" payloadFresh 2000
      (by decide) (by decide) (by decide) (by decide)⟩

/-- Claim C5, counterexample to the claim as stated: the already-expired
credential `"old"` (`exp = 500`, `now = 1000`) has a verifying signature,
a matching issuer and `exp - now = -500 < 30`, yet `ValidateAccess` fails
with the `Expired` error of the external verification primitive, not with
`AboutToExpire`. -/
theorem c5_expired_counterexample :
    decodeFixture "old" = some payloadExpired ∧
    payloadExpired.iss = some "auth:auth" ∧ payloadExpired.exp = some 500 ∧
    (500 : Int) - 1000 < 30 ∧
    ValidateAccess decodeFixture 1000 "old" = .error .expired ∧
    ValidateAccess decodeFixture 1000 "old" ≠ .error .aboutToExpire := by
  refine ⟨by decide, by decide, by decide, by decide, by decide, by decide⟩

/-- Claim C5 (amended): with a nonnegative wall clock, a credential whose
signature verifies, whose issuer matches and whose `exp` claim satisfies
`exp - now < 30` never validates: it fails with `AboutToExpire` when it
has not yet expired (`now < exp`), and already at the external
verification step with `Expired` when `exp ≤ now`. -/
theorem c5_buffer_rejects (decode : String → Option Payload) (now : Int)
    (jwt : String) (p : Payload) (e : Int)
    (h0 : 0 ≤ now) (h1 : decode jwt = some p) (h2 : p.iss = some "auth:auth")
    (h3 : p.exp = some e) (h4 : e - now < 30) :
    ValidateAccess decode now jwt =
      .error (if now < e then VError.aboutToExpire else VError.expired) := by
  unfold ValidateAccess jwtVerify
  rw [h1]
  by_cases hlt : now < e
  · have hnow : ¬ e ≤ now := by omega
    have h0e : e ≠ 0 := by omega
    have hb : e - now < 30 := h4
    simp [h2, h3, hnow, h0e, hb, hlt]
  · have hnow : e ≤ now := by omega
    simp [h2, h3, hnow, hlt]

/-- Witness for the amended C5 at the concrete fixture: the near-expiry
credential (`exp = 1010`, `now = 1000`) fails with `AboutToExpire`. -/
theorem c5_buffer_rejects_witness :
    (0 : Int) ≤ 1000 ∧ decodeFixture "near" = some payloadNearExpiry ∧
    (1010 : Int) - 1000 < 30 ∧
    ValidateAccess decodeFixture 1000 "near" =
      .error (if (1000 : Int) < 1010 then VError.aboutToExpire else VError.expired) :=
  ⟨by decide, by decide, by decide,
    c5_buffer_rejects decodeFixture 1000 "near" payloadNearExpiry 1010
      (by decide) (by decide) (by decide) (by decide) (by decide)⟩

/-- Claim C10 (confirmed): a credential whose signature and issuer verify
and whose payload carries no `exp` claim skips both the expiry
verification and the about-to-expire buffer check and validates to its
payload — in particular it can never fail with `AboutToExpire`. -/
theorem c10_no_exp_skips_buffer (decode : String → Option Payload) (now : Int)
    (jwt : String) (p : Payload)
    (h1 : decode jwt = some p) (h2 : p.iss = some "auth:auth") (h3 : p.exp = none) :
    ValidateAccess decode now jwt = .ok p := by
  unfold ValidateAccess jwtVerify
  rw [h1]
  simp [h2, h3]

/-- Witness for C10 at the concrete fixture: the credential without an
`exp` claim validates to its payload. -/
theorem c10_no_exp_skips_buffer_witness :
    decodeFixture "noexp" = some payloadNoExp ∧ payloadNoExp.exp = none ∧
    ValidateAccess decodeFixture 1000 "noexp" = .ok payloadNoExp ∧
    ValidateAccess decodeFixture 1000 "noexp" ≠ .error .aboutToExpire :=
  ⟨by decide, by decide,
    c10_no_exp_skips_buffer decodeFixture 1000 "noexp" payloadNoExp
      (by decide) (by decide) (by decide), by decide⟩

/-! ### Claims about the Refresh Coordinator -/

/-- Claim C4 (confirmed): on a call that finds the session key unmarked,
the `try` block fails with `MissingRefreshToken` exactly when the refresh
cookie is empty or absent, with `RefreshExchangeFailed(status)` exactly
when the exchange reports non-success, with `MissingIssuedCredential`
exactly when no new access credential is readable after a successful
exchange, and otherwise produces exactly the verdict of the Credential
Validator on the new credential; the function then returns the validated
claims, converting every failure into the thrown
`redirect(302, '/auth/login')`. -/
theorem c4_refresh_error_classification (v : String → Except VError Payload)
    (f : String → FetchResult) (sid : String) (σ₀ : Shared) (sch₀ : Sched)
    (h : hasKey σ₀.refreshingStates sid = false) :
    (handleTokenRefresh v f sid σ₀ sch₀).result =
        Except.mapError (fun _ => Thrown.redirect 302 "/auth/login")
          (refreshBody v f (markedState σ₀ sid) sch₀).result
    ∧ (handleTokenRefresh v f sid σ₀ sch₀).innerError =
        errorOf (refreshBody v f (markedState σ₀ sid) sch₀).result
    ∧ (refreshBody v f (markedState σ₀ sid) sch₀).result =
      (if jsTruthy σ₀.refreshToken = false then Except.error RefreshError.missingRefreshToken
       else if (f (σ₀.refreshToken.getD "")).ok = false then
         Except.error (RefreshError.refreshExchangeFailed (f (σ₀.refreshToken.getD "")).status)
       else if jsTruthy (step sch₀ (markedState σ₀ sid)).1.accessToken = false then
         Except.error RefreshError.missingIssuedCredential
       else Except.mapError RefreshError.validationFailed
         (v ((step sch₀ (markedState σ₀ sid)).1.accessToken.getD ""))) := by
  refine ⟨?_, ?_, ?_⟩
  · simp [handleTokenRefresh, waitPhase, h, markAndRefresh]
  · simp [handleTokenRefresh, waitPhase, h, markAndRefresh]
  · have hb := refreshBody_result_eq v f (markedState σ₀ sid) sch₀
    simpa [markedState] using hb

/-- Witness for C4: with no access credential visible after a successful
exchange, the classification yields `MissingIssuedCredential` and the call
converts it into the login redirect. -/
theorem c4_refresh_error_classification_witness :
    hasKey sharedNoAccess.refreshingStates "default" = false ∧
    (handleTokenRefresh vFix fetchOk "default" sharedNoAccess []).innerError =
      some RefreshError.missingIssuedCredential ∧
    (handleTokenRefresh vFix fetchOk "default" sharedNoAccess []).result =
      .error (.redirect 302 "/auth/login") := by
  have H := c4_refresh_error_classification vFix fetchOk "default" sharedNoAccess [] (by decide)
  refine ⟨by decide, ?_, ?_⟩
  · rw [H.2.1, H.2.2]; decide
  · rw [H.1, H.2.2]; decide

/-- Claim C1, counterexample to the claim as stated: a call that enters
the waiting branch while session `"s"` is marked, exhausts the 30-attempt
cap with the flag still held, and finds a valid access credential returns
those claims early — and immediately after it returns, `"s"` is STILL
present in the lock table (it was never this call to remove it, and the
early-return path performs no cleanup). -/
theorem c1_lock_leak_counterexample :
    (handleTokenRefresh vFix fetchOk "s" sharedLockedFresh []).result = .ok payloadFresh ∧
    (handleTokenRefresh vFix fetchOk "s" sharedLockedFresh []).earlyReturn = true ∧
    hasKey (handleTokenRefresh vFix fetchOk "s" sharedLockedFresh []).final.refreshingStates "s"
      = true := by
  refine ⟨by decide, by decide, by decide⟩

/-- Claim C1 (amended): on every call that does not return early from the
waiting branch — in particular every call that marked the key itself — the
session key is absent from the lock table immediately after the call
returns, on success, error and redirect paths alike (the `finally`
cleanup); only the early-return path leaves the table untouched, so the
key may remain present there while the concurrent holder is still
refreshing. -/
theorem c1_no_leak_unless_early (v : String → Except VError Payload)
    (f : String → FetchResult) (sid : String) (σ₀ : Shared) (sch₀ : Sched)
    (h : (handleTokenRefresh v f sid σ₀ sch₀).earlyReturn = false) :
    hasKey (handleTokenRefresh v f sid σ₀ sch₀).final.refreshingStates sid = false := by
  unfold handleTokenRefresh at h ⊢
  cases hW : waitPhase v sid σ₀ sch₀ with
  | early payload σ' sch' polls wv =>
    rw [hW] at h
    simp at h
  | fallThrough σ' sch' polls wv =>
    simp [markAndRefresh, hasKey_deleteKey]

/-- Witness for the amended C1: an uncontended failing refresh ends with
the session key absent from the table. -/
theorem c1_no_leak_unless_early_witness :
    (handleTokenRefresh vFix fetchFail "default" sharedNear []).earlyReturn = false ∧
    hasKey (handleTokenRefresh vFix fetchFail "default" sharedNear []).final.refreshingStates
      "default" = false :=
  ⟨by decide, c1_no_leak_unless_early vFix fetchFail "default" sharedNear [] (by decide)⟩

/-- Claim C2, counterexample to the claim as stated: session `"s"` is
marked for the whole wait and a valid access credential is externally
visible from the very first check, yet the caller performs all 30 sleeps
(it re-checks only the `Refreshing` flag, never the credential) and runs
the Credential Validator exactly once, after the wait — it does not return
as soon as the valid credential appears, and does not re-validate on each
check. -/
theorem c2_no_per_check_validation_counterexample :
    (handleTokenRefresh vFix fetchOk "s" sharedLockedFresh []).polls = 30 ∧
    (handleTokenRefresh vFix fetchOk "s" sharedLockedFresh []).waitValidations = 1 ∧
    (handleTokenRefresh vFix fetchOk "s" sharedLockedFresh []).result = .ok payloadFresh := by
  refine ⟨by decide, by decide, by decide⟩

/-- Claim C2 (amended): when the session key is already marked, the caller
enters the bounded poll (at most 30 sleeps) whose per-iteration check
inspects only the `Refreshing` flag; when the wait ends — flag cleared or
cap reached — the Credential Validator runs at most once, against the
access credential stored externally at that moment, and exactly when that
credential is truthy and validates, the call returns its claims without
refreshing. -/
theorem c2_wait_checks_flag_only (v : String → Except VError Payload)
    (f : String → FetchResult) (sid : String) (σ₀ : Shared) (sch₀ : Sched)
    (h : hasKey σ₀.refreshingStates sid = true) :
    (handleTokenRefresh v f sid σ₀ sch₀).polls = (pollLoop sid 30 σ₀ sch₀).1 ∧
    (handleTokenRefresh v f sid σ₀ sch₀).polls ≤ 30 ∧
    (handleTokenRefresh v f sid σ₀ sch₀).waitValidations ≤ 1 ∧
    (handleTokenRefresh v f sid σ₀ sch₀).earlyReturn =
      (jsTruthy (pollLoop sid 30 σ₀ sch₀).2.1.accessToken &&
        exceptIsOk (v ((pollLoop sid 30 σ₀ sch₀).2.1.accessToken.getD ""))) ∧
    ((handleTokenRefresh v f sid σ₀ sch₀).earlyReturn = true →
      (handleTokenRefresh v f sid σ₀ sch₀).result =
        Except.mapError (fun e => Thrown.err (RefreshError.validationFailed e))
          (v ((pollLoop sid 30 σ₀ sch₀).2.1.accessToken.getD ""))) := by
  unfold handleTokenRefresh waitPhase
  cases hA : jsTruthy (pollLoop sid 30 σ₀ sch₀).2.1.accessToken
  · simp [h, hA, markAndRefresh, pollLoop_fst_le]
  · cases hV : v ((pollLoop sid 30 σ₀ sch₀).2.1.accessToken.getD "") with
    | error e => simp [h, hA, hV, markAndRefresh, exceptIsOk, pollLoop_fst_le]
    | ok p => simp [h, hA, hV, exceptIsOk, pollLoop_fst_le, Except.mapError]

/-- Witness for the amended C2 at the leak fixture: the wait length equals
the flag-only poll loop and the single post-wait validation returns the
fresh claims. -/
theorem c2_wait_checks_flag_only_witness :
    hasKey sharedLockedFresh.refreshingStates "s" = true ∧
    (handleTokenRefresh vFix fetchOk "s" sharedLockedFresh []).polls =
      (pollLoop "s" 30 sharedLockedFresh []).1 ∧
    (handleTokenRefresh vFix fetchOk "s" sharedLockedFresh []).waitValidations ≤ 1 ∧
    (handleTokenRefresh vFix fetchOk "s" sharedLockedFresh []).result = .ok payloadFresh := by
  have H := c2_wait_checks_flag_only vFix fetchOk "s" sharedLockedFresh [] (by decide)
  exact ⟨by decide, H.1, H.2.2.1, by decide⟩

/-- Claim C6 (confirmed): a caller that exhausts the 30-attempt cap
without obtaining a valid credential does not fail — it falls through,
marks the session key itself, and (whenever a refresh credential is
present) invokes its own independent refresh exchange. -/
theorem c6_poll_cap_falls_through (v : String → Except VError Payload)
    (f : String → FetchResult) (sid : String) (σ₀ : Shared) (sch₀ : Sched)
    (σ' : Shared) (sch' : Sched) (wv : Nat)
    (h : waitPhase v sid σ₀ sch₀ = .fallThrough σ' sch' 30 wv) :
    (handleTokenRefresh v f sid σ₀ sch₀).earlyReturn = false ∧
    (handleTokenRefresh v f sid σ₀ sch₀).marked = true ∧
    (handleTokenRefresh v f sid σ₀ sch₀).polls = 30 ∧
    (handleTokenRefresh v f sid σ₀ sch₀).performedExchange = jsTruthy σ'.refreshToken := by
  unfold handleTokenRefresh
  rw [h]
  refine ⟨rfl, rfl, rfl, ?_⟩
  simp [markAndRefresh, refreshBody_performedExchange, markedState]

/-- Witness for C6: the locked fixture with an invalid visible credential
times out at the cap, falls through, marks and performs its own
exchange. -/
theorem c6_poll_cap_falls_through_witness :
    waitPhase vFix "s" sharedLockedBad [] = .fallThrough sharedLockedBad [] 30 1 ∧
    (handleTokenRefresh vFix fetchOk "s" sharedLockedBad []).marked = true ∧
    (handleTokenRefresh vFix fetchOk "s" sharedLockedBad []).polls = 30 ∧
    (handleTokenRefresh vFix fetchOk "s" sharedLockedBad []).performedExchange = true := by
  have hW : waitPhase vFix "s" sharedLockedBad [] = .fallThrough sharedLockedBad [] 30 1 := rfl
  have H := c6_poll_cap_falls_through vFix fetchOk "s" sharedLockedBad [] sharedLockedBad [] 1 hW
  exact ⟨hW, H.2.1, H.2.2.1, by rw [H.2.2.2]; decide⟩

/-! ### Claims about the Auth Resolver -/

/-- Claim C3, counterexample to the claim as stated: with an
about-to-expire access credential, a present refresh credential and an
exchange answering status 500, the failure escaping `getUserFromToken` is
already the thrown `redirect(302, '/auth/login')` — not a
`RefreshExchangeFailed` error — and `requireAuth` propagates that bare
redirect instead of converting the failure itself (its own conversion
would have carried a `returnUrl` parameter). -/
theorem c3_redirect_not_error_counterexample :
    (getUserFromToken vFix fetchFail none sharedNear []).1 =
      .error (.redirect 302 "/auth/login") ∧
    (getUserFromToken vFix fetchFail none sharedNear []).1 ≠
      .error (.err (.refreshExchangeFailed 500)) ∧
    (requireAuth vFix fetchFail none "/p" "?q=1" sharedNear []).1 ≠
      .error (.redirect 302 ("/auth/login?returnUrl=" ++ encodeURIComponent ("/p" ++ "?q=1"))) := by
  refine ⟨by decide, by decide, by decide⟩

/-- Claim C3 (amended): in the about-to-expire / failing-exchange
scenario, the refresh attempt fails internally with
`RefreshExchangeFailed(status)`; the Refresh Coordinator itself converts
that failure into a thrown `redirect(302, '/auth/login')`, and both
`getUserFromToken` and `requireAuth` propagate this redirect unchanged
(without adding a `returnUrl`). -/
theorem c3_exchange_failure_redirect (decode : String → Option Payload) (now : Int)
    (f : String → FetchResult) (xsid : Option String) (pathname search : String) (σ₀ : Shared)
    (h1 : jsTruthy σ₀.accessToken = true)
    (h2 : ValidateAccess decode now (σ₀.accessToken.getD "") = .error .aboutToExpire)
    (h3 : jsTruthy σ₀.refreshToken = true)
    (h4 : hasKey σ₀.refreshingStates (deriveSessionId xsid σ₀.sessionIdCookie) = false)
    (h5 : (f (σ₀.refreshToken.getD "")).ok = false) :
    (handleTokenRefresh (ValidateAccess decode now) f
        (deriveSessionId xsid σ₀.sessionIdCookie) σ₀ []).innerError =
      some (RefreshError.refreshExchangeFailed (f (σ₀.refreshToken.getD "")).status) ∧
    (getUserFromToken (ValidateAccess decode now) f xsid σ₀ []).1 =
      .error (.redirect 302 "/auth/login") ∧
    (requireAuth (ValidateAccess decode now) f xsid pathname search σ₀ []).1 =
      .error (.redirect 302 "/auth/login") := by
  have hbody : (refreshBody (ValidateAccess decode now) f
      (markedState σ₀ (deriveSessionId xsid σ₀.sessionIdCookie)) []).result =
      .error (.refreshExchangeFailed (f (σ₀.refreshToken.getD "")).status) := by
    rw [refreshBody_result_eq]
    simp [markedState, h3, h5, step]
  have hrun1 : (handleTokenRefresh (ValidateAccess decode now) f
      (deriveSessionId xsid σ₀.sessionIdCookie) σ₀ []).innerError =
      some (RefreshError.refreshExchangeFailed (f (σ₀.refreshToken.getD "")).status) := by
    simp [handleTokenRefresh, waitPhase, h4, markAndRefresh, hbody, errorOf]
  have hrun2 : (handleTokenRefresh (ValidateAccess decode now) f
      (deriveSessionId xsid σ₀.sessionIdCookie) σ₀ []).result =
      .error (.redirect 302 "/auth/login") := by
    simp [handleTokenRefresh, waitPhase, h4, markAndRefresh, hbody, Except.mapError]
  have hg : (getUserFromToken (ValidateAccess decode now) f xsid σ₀ []).1 =
      .error (.redirect 302 "/auth/login") := by
    simp [getUserFromToken, step, h1, h2, h3, hrun2, Except.map]
  refine ⟨hrun1, hg, ?_⟩
  simp [requireAuth, hg]

/-- Witness for the amended C3 at the concrete fixture. -/
theorem c3_exchange_failure_redirect_witness :
    jsTruthy sharedNear.accessToken = true ∧
    ValidateAccess decodeFixture 1000 (sharedNear.accessToken.getD "") = .error .aboutToExpire ∧
    (handleTokenRefresh (ValidateAccess decodeFixture 1000) fetchFail
        (deriveSessionId none sharedNear.sessionIdCookie) sharedNear []).innerError =
      some (RefreshError.refreshExchangeFailed
        (fetchFail (sharedNear.refreshToken.getD "")).status) ∧
    (getUserFromToken (ValidateAccess decodeFixture 1000) fetchFail none sharedNear []).1 =
      .error (.redirect 302 "/auth/login") ∧
    (requireAuth (ValidateAccess decodeFixture 1000) fetchFail none "/p" "?q=1"
        sharedNear []).1 =
      .error (.redirect 302 "/auth/login") := by
  have H := c3_exchange_failure_redirect decodeFixture 1000 fetchFail none "/p" "?q=1" sharedNear
    (by decide) (by decide) (by decide) (by decide) (by decide)
  exact ⟨by decide, by decide, H.1, H.2.1, H.2.2⟩

/-- Claim C7 (confirmed): with neither an access nor a refresh credential,
`getUserFromToken` returns `null` without throwing and leaves the state
untouched, and `requireAuth` throws a 302 redirect to
`/auth/login?returnUrl=<percent-encoded pathname + search>`. -/
theorem c7_no_credentials_null_and_redirect (v : String → Except VError Payload)
    (f : String → FetchResult) (xsid : Option String) (pathname search : String)
    (σ₀ : Shared) (sch₀ : Sched)
    (h1 : jsTruthy σ₀.accessToken = false) (h2 : jsTruthy σ₀.refreshToken = false) :
    getUserFromToken v f xsid σ₀ sch₀ = (.ok none, σ₀) ∧
    requireAuth v f xsid pathname search σ₀ sch₀ =
      (.error (.redirect 302
        ("/auth/login?returnUrl=" ++ encodeURIComponent (pathname ++ search))), σ₀) := by
  have hg : getUserFromToken v f xsid σ₀ sch₀ = (.ok none, σ₀) := by
    simp [getUserFromToken, h1, h2]
  exact ⟨hg, by simp [requireAuth, hg]⟩

/-- Witness for C7: on the empty request the resolver yields `null` and
`requireAuth` redirects with the percent-encoded return path
(`/dash board?q=1` encodes to `%2Fdash%20board%3Fq%3D1`). -/
theorem c7_no_credentials_null_and_redirect_witness :
    jsTruthy sharedEmpty.accessToken = false ∧ jsTruthy sharedEmpty.refreshToken = false ∧
    getUserFromToken vFix fetchOk none sharedEmpty [] = (.ok none, sharedEmpty) ∧
    requireAuth vFix fetchOk none "/dash board" "?q=1" sharedEmpty [] =
      (.error (.redirect 302 "/auth/login?returnUrl=%2Fdash%20board%3Fq%3D1"), sharedEmpty) := by
  have H := c7_no_credentials_null_and_redirect vFix fetchOk none "/dash board" "?q=1"
    sharedEmpty [] (by decide) (by decide)
  refine ⟨by decide, by decide, H.1, ?_⟩
  rw [H.2]
  decide

/-- Claim C9 (confirmed): a present access credential that fails
validation, with no refresh credential present at the post-validation
read, makes `getUserFromToken` return `null` rather than propagate the
validation error. -/
theorem c9_invalid_access_no_refresh_null (v : String → Except VError Payload)
    (f : String → FetchResult) (xsid : Option String) (σ₀ : Shared) (sch₀ : Sched)
    (h1 : jsTruthy σ₀.accessToken = true)
    (h2 : exceptIsOk (v (σ₀.accessToken.getD "")) = false)
    (h3 : jsTruthy (step sch₀ σ₀).1.refreshToken = false) :
    getUserFromToken v f xsid σ₀ sch₀ = (.ok none, (step sch₀ σ₀).1) := by
  cases hV : v (σ₀.accessToken.getD "") with
  | ok p =>
    rw [hV] at h2
    simp [exceptIsOk] at h2
  | error e => simp [getUserFromToken, h1, hV, h3]

/-- Witness for C9: an invalid access credential and no refresh credential
resolve to `null` with no thrown value. -/
theorem c9_invalid_access_no_refresh_null_witness :
    jsTruthy sharedBadNoRefresh.accessToken = true ∧
    exceptIsOk (vFix (sharedBadNoRefresh.accessToken.getD "")) = false ∧
    getUserFromToken vFix fetchOk none sharedBadNoRefresh [] = (.ok none, sharedBadNoRefresh) := by
  have H := c9_invalid_access_no_refresh_null vFix fetchOk none sharedBadNoRefresh []
    (by decide) (by decide) (by decide)
  exact ⟨by decide, by decide, by simpa [step] using H⟩
